import Mathlib

/-!
Shallow embedding of the `chatgpt-go` client (`src/chatgpt.go`).

Conventions of the embedding:
* `time.Time` values are modelled as `Int` (nanoseconds since the epoch);
  `t.After(u)` is `t > u`; `time.Duration` is an `Int` count of nanoseconds.
* The `*logrus.Entry` logger is observed by the code only through nil checks,
  so it is modelled by a `Bool` (`hasLog`); log statements have no observable
  effect and are dropped.
* Network interactions are modelled by an explicit environment (`NetEnv`):
  the status code and parse outcome of the session endpoint's response, the
  status code and error-body of the conversation endpoint's response, and the
  outcome of `json.Unmarshal` into `ConversationResult` as a function from
  the raw payload string.  The response stream of the conversation endpoint
  is an explicit byte (char) list.
* `uuid.NewString()` results are passed in as explicit arguments
  (`freshParent`, `freshMsg`).
* The unbounded `for` loop reading the stream is modelled with fuel
  (`sendLoop`); `none` means the fuel was exhausted, so a result of `none`
  for every fuel bound means the loop never exits.
* Struct fields of the Go source that the code never reads
  (`SessionResult.User`, `ConversationResult.Message.User/CreateTime/...`,
  `ConversationResult.Error`) are omitted from the embedded records.
-/

/-- One nanosecond count of `time.Second`. -/
def timeSecond : Int := 1000000000

/-- The `ChatGPT` struct of the source (`src/chatgpt.go` lines 16-24). -/
structure ChatGPT where
  sessionToken : String
  clearanceToken : String
  accessToken : String
  accessTokenExpires : Int
  hasLog : Bool
  timeout : Int
  userAgent : String
  deriving Repr, DecidableEq

/-- The `ChatGPTOptions` struct (lines 26-32). -/
structure ChatGPTOptions where
  sessionToken : String
  clearanceToken : String
  userAgent : String
  hasLog : Bool
  timeout : Option Int
  deriving Repr, DecidableEq

/-- `NewChatGPT` (lines 34-51): fails when a required field is empty,
otherwise constructs the client, defaulting the timeout to ten seconds. -/
def NewChatGPT (options : ChatGPTOptions) : Option ChatGPT :=
  if options.sessionToken = "" ∨ options.clearanceToken = "" ∨ options.userAgent = "" then
    none
  else
    let c : ChatGPT :=
      { sessionToken := options.sessionToken
        clearanceToken := options.clearanceToken
        accessToken := ""
        accessTokenExpires := 0
        hasLog := options.hasLog
        timeout := 0
        userAgent := options.userAgent }
    match options.timeout with
    | some t => some { c with timeout := t }
    | none => some { c with timeout := 10 * timeSecond }

/-- The fields of `SessionResult` (lines 53-66) that the code reads; the
nested `User` object is never inspected and is omitted. -/
structure SessionResult where
  expires : Int
  accessToken : String
  error : String
  deriving Repr, DecidableEq

/-- `ConversationResult.Message.Content` (lines 163-166). -/
structure ConvResultContent where
  contentType : String
  parts : List String
  deriving Repr, DecidableEq

/-- `ConversationResult.Message` (lines 157-172); the `User`, `CreateTime`,
`UpdateTime`, `EndTurn`, `Weight`, `Metadata` and `Recipient` fields are
never read by the code and are omitted. -/
structure ConvResultMessage where
  id : String
  role : String
  content : ConvResultContent
  deriving Repr, DecidableEq

/-- `ConversationResult` (lines 156-175); the `Error` field is never read. -/
structure ConversationResult where
  message : ConvResultMessage
  conversationId : String
  deriving Repr, DecidableEq

/-- `(*ConversationResult).GetMessage` (lines 177-179): indexes
`Message.Content.Parts[0]` with no emptiness guard.  `none` models the Go
out-of-range panic on an empty parts slice. -/
def GetMessage (r : ConversationResult) : Option String :=
  r.message.content.parts[0]?

/-- The network environment a call runs against: outcomes of the two HTTP
round-trips, except for the conversation response stream which is passed
separately as a char list. -/
structure NetEnv where
  sessionTransportError : Bool
  sessionStatus : Nat
  sessionParse : Option SessionResult
  convStatus : Nat
  convErrorBody : String
  convDecode : String → Option ConversationResult

/-- The failure conditions of `RefreshAccessToken` (lines 72-123), in the
order the code checks them. -/
inductive RefreshError where
  | transport
  | statusNot200 (code : Nat)
  | decodeFailed
  | missingToken
  | remoteError (msg : String)
  deriving Repr, DecidableEq

/-- Result of a `RefreshAccessToken` call: the (possibly updated) client
state, how many network requests were issued, and the error if any. -/
structure RefreshResult where
  state : ChatGPT
  networkCalls : Nat
  error : Option RefreshError
  deriving Repr, DecidableEq

/-- `IsAccessTokenExpired` (lines 68-70): `time.Now().After(expires)`,
i.e. strictly after. -/
def IsAccessTokenExpired (now : Int) (c : ChatGPT) : Bool :=
  now > c.accessTokenExpires

/-- `RefreshAccessToken` (lines 72-123).  When the cached token is non-empty
and unexpired the function returns immediately; otherwise one GET is issued
and its body is checked for status, parseability, a token and an error
field, the cached token and expiry being replaced only on full success. -/
def RefreshAccessToken (now : Int) (env : NetEnv) (c : ChatGPT) : RefreshResult :=
  if c.accessToken = "" ∨ IsAccessTokenExpired now c then
    if env.sessionTransportError then
      { state := c, networkCalls := 1, error := some .transport }
    else if env.sessionStatus ≠ 200 then
      { state := c, networkCalls := 1, error := some (.statusNot200 env.sessionStatus) }
    else
      match env.sessionParse with
      | none => { state := c, networkCalls := 1, error := some .decodeFailed }
      | some r =>
        if r.accessToken = "" then
          { state := c, networkCalls := 1, error := some .missingToken }
        else if r.error ≠ "" then
          { state := c, networkCalls := 1, error := some (.remoteError r.error) }
        else
          { state := { c with accessTokenExpires := r.expires, accessToken := r.accessToken }
            networkCalls := 1
            error := none }
  else
    { state := c, networkCalls := 0, error := none }

/-- The `Conversation` struct (lines 125-129); the `*ChatGPT` pointer is
flattened into the record. -/
structure Conversation where
  chatgpt : ChatGPT
  conversationId : String
  parentMessageId : String
  deriving Repr, DecidableEq

/-- `ConversationBodyMessage.Content` (lines 142-145). -/
structure ConvBodyContent where
  contentType : String
  parts : List String
  deriving Repr, DecidableEq

/-- `ConversationBodyMessage` (lines 139-146). -/
structure ConversationBodyMessage where
  id : String
  role : String
  content : ConvBodyContent
  deriving Repr, DecidableEq

/-- `ConversationBody` (lines 148-154).  `conversationId` carries the
`omitempty` JSON tag, reflected in `marshalConversationBody`. -/
structure ConversationBody where
  action : String
  messages : List ConversationBodyMessage
  parentMessageId : String
  model : String
  conversationId : String
  deriving Repr, DecidableEq

/-- A JSON value, used to model the output shape of `json.Marshal`. -/
inductive Jval where
  | str (s : String)
  | arr (xs : List Jval)
  | obj (fields : List (String × Jval))

/-- `json.Marshal` of one `ConversationBodyMessage`, field for field in
struct-tag order. -/
def marshalMessage (m : ConversationBodyMessage) : Jval :=
  .obj [("id", .str m.id), ("role", .str m.role),
        ("content", .obj [("content_type", .str m.content.contentType),
                          ("parts", .arr (m.content.parts.map Jval.str))])]

/-- `json.Marshal` of a `ConversationBody` as the ordered list of top-level
fields: the `omitempty` tag on `conversation_id` omits the key when the
string is empty. -/
def marshalConversationBody (b : ConversationBody) : List (String × Jval) :=
  [("action", .str b.action), ("messages", .arr (b.messages.map marshalMessage)),
   ("parent_message_id", .str b.parentMessageId), ("model", .str b.model)] ++
  (if b.conversationId = "" then [] else [("conversation_id", .str b.conversationId)])

/-- The request body `SendMessage` builds (lines 206-224): the
`conversation_id` field is assigned only when the client already knows a
conversation id. -/
def buildConversationBody (c : Conversation) (freshMsg message : String) : ConversationBody :=
  { action := "next"
    messages := [{ id := freshMsg
                   role := "user"
                   content := { contentType := "text", parts := [message] } }]
    parentMessageId := c.parentMessageId
    model := "text-davinci-002-render"
    conversationId := if c.conversationId ≠ "" then c.conversationId else "" }

/-- `bufio.Reader.ReadBytes`(newline) over a finite byte stream: returns the
chunk up to and including the first newline with no error (`false`), or, when
no newline remains, the whole rest of the stream with `io.EOF` (`true`). -/
def readBytesNL : List Char → List Char × Bool × List Char
  | [] => ([], true, [])
  | c :: rest =>
    if c = '\n' then ([c], false, rest)
    else
      match readBytesNL rest with
      | (line, eof, rem) => (c :: line, eof, rem)

/-- Index of the first occurrence of the two-byte separator `": "`
(`bytes.SplitN`'s search). -/
def findDelimIdx : List Char → Option Nat
  | [] => none
  | [_] => none
  | a :: b :: rest =>
    if a = ':' ∧ b = ' ' then some 0
    else (findDelimIdx (b :: rest)).map (· + 1)

/-- `bytes.SplitN(bs, []byte{':', ' '}, 2)`: two pieces around the first
separator occurrence, or the single whole slice when it is absent. -/
def splitN2 (bs : List Char) : List (List Char) :=
  match findDelimIdx bs with
  | some i => [bs.take i, bs.drop (i + 2)]
  | none => [bs]

/-- `strings.TrimSuffix(s, newline)`: drop one trailing newline if present. -/
def trimSuffixNL (s : List Char) : List Char :=
  if s.getLast? = some '\n' then s.dropLast else s

/-- The stream-reading `for` loop of `SendMessage` (lines 261-284), with
fuel.  Each iteration reads one chunk; chunks shorter than 2 bytes or
without the `": "` separator are skipped; at `io.EOF` or on the `[DONE]`
sentinel the loop breaks returning the previously captured candidate;
otherwise the candidate is overwritten.  `none` means the fuel ran out
before the loop broke. -/
def sendLoop : Nat → List Char → String → Option String
  | 0, _, _ => none
  | fuel + 1, stream, resp =>
    match readBytesNL stream with
    | (bs, eof, rest) =>
      if bs.length < 2 then sendLoop fuel rest resp
      else
        match splitN2 bs with
        | [_, after] =>
          let value := String.mk (trimSuffixNL after)
          if eof = true ∨ value = "[DONE]" then some resp
          else sendLoop fuel rest value
        | _ => sendLoop fuel rest resp

/-- The error returns of `SendMessage` (lines 199-298). -/
inductive SendError where
  | refresh (e : RefreshError)
  | statusErr (code : Nat) (body : String)
  | decodeErr (payload : String)
  deriving Repr, DecidableEq

/-- Outcome of a `SendMessage` call: normal return, error return, or the
runtime panic of the unguarded `Parts[0]` index in `GetMessage`. -/
inductive SendResult where
  | ok (reply : String)
  | err (e : SendError)
  | panicked
  deriving Repr, DecidableEq

/-- `(*Conversation).SendMessage` (lines 199-298).  The parent-message id is
filled with a fresh uuid when empty (before anything can fail), the token is
refreshed, the body is built and POSTed, a non-200 status is an error, the
stream is read by `sendLoop`, the captured candidate is decoded, linkage is
updated, and `GetMessage` extracts the reply.  The outer `none` means the
read loop never exited (fuel exhausted). -/
def SendMessage (now : Int) (env : NetEnv) (stream : List Char)
    (freshParent freshMsg : String) (fuel : Nat)
    (c : Conversation) (message : String) : Option (Conversation × SendResult) :=
  let c1 := if c.parentMessageId = "" then { c with parentMessageId := freshParent } else c
  let r := RefreshAccessToken now env c1.chatgpt
  let c2 := { c1 with chatgpt := r.state }
  match r.error with
  | some e => some (c2, .err (.refresh e))
  | none =>
    let _body := buildConversationBody c2 freshMsg message
    if env.convStatus ≠ 200 then
      some (c2, .err (.statusErr env.convStatus env.convErrorBody))
    else
      match sendLoop fuel stream "" with
      | none => none
      | some respMessage =>
        match env.convDecode respMessage with
        | none => some (c2, .err (.decodeErr respMessage))
        | some result =>
          let c3 := { c2 with parentMessageId := result.message.id
                              conversationId := result.conversationId }
          match GetMessage result with
          | some reply => some (c3, .ok reply)
          | none => some (c3, .panicked)

/-! ### Helper lemmas about the stream-reading primitives -/

theorem sendLoop_nil_fuel (fuel : Nat) (resp : String) : sendLoop fuel [] resp = none := by
  induction fuel with
  | zero => rfl
  | succ n ih => simp [sendLoop, readBytesNL, ih]

theorem readBytesNL_line (pre rest : List Char) (h : '\n' ∉ pre) :
    readBytesNL (pre ++ '\n' :: rest) = (pre ++ ['\n'], false, rest) := by
  induction pre with
  | nil => simp [readBytesNL]
  | cons a t ih =>
    have ha : a ≠ '\n' := fun hEq => h (hEq ▸ List.mem_cons_self a t)
    have ht : '\n' ∉ t := fun hm => h (List.mem_cons_of_mem a hm)
    simp [readBytesNL, ha, ih ht]

theorem findDelimIdx_data (xs : List Char) :
    findDelimIdx ('d' :: 'a' :: 't' :: 'a' :: ':' :: ' ' :: xs) = some 4 := rfl

theorem splitN2_data (xs : List Char) :
    splitN2 ('d' :: 'a' :: 't' :: 'a' :: ':' :: ' ' :: xs) =
      [['d', 'a', 't', 'a'], xs] := rfl

theorem trimSuffixNL_concat (p : List Char) : trimSuffixNL (p ++ ['\n']) = p := by
  simp [trimSuffixNL]

theorem string_mk_toList (s : String) : String.mk s.toList = s := rfl

theorem sendLoop_payload_step (p : String) (hnl : '\n' ∉ p.toList) (hd : p ≠ "[DONE]")
    (rest : List Char) (fuel : Nat) (resp : String) :
    sendLoop (fuel + 1) ("data: ".toList ++ p.toList ++ '\n' :: rest) resp =
      sendLoop fuel rest p := by
  have hpre : '\n' ∉ "data: ".toList ++ p.toList := by
    intro hm
    rcases List.mem_append.mp hm with h1 | h2
    · simp at h1
    · exact hnl h2
  have hstream : "data: ".toList ++ p.toList ++ '\n' :: rest =
      ("data: ".toList ++ p.toList) ++ '\n' :: rest := by
    rw [List.append_assoc]
  rw [hstream]
  have hread := readBytesNL_line ("data: ".toList ++ p.toList) rest hpre
  simp only [sendLoop, hread]
  have hlen : ¬ (("data: ".toList ++ p.toList) ++ ['\n']).length < 2 := by
    simp [List.length_append]
  rw [if_neg hlen]
  have hsplit : splitN2 (("data: ".toList ++ p.toList) ++ ['\n']) =
      [['d', 'a', 't', 'a'], p.toList ++ ['\n']] := splitN2_data (p.toList ++ ['\n'])
  rw [hsplit]
  simp only [trimSuffixNL_concat, string_mk_toList]
  rw [if_neg]
  simp [hd]

theorem sendLoop_junk_step (raw : String) (hnl : '\n' ∉ raw.toList)
    (hskip : raw = "" ∨ findDelimIdx (raw.toList ++ ['\n']) = none)
    (rest : List Char) (fuel : Nat) (resp : String) :
    sendLoop (fuel + 1) (raw.toList ++ '\n' :: rest) resp = sendLoop fuel rest resp := by
  have hread := readBytesNL_line raw.toList rest hnl
  simp only [sendLoop, hread]
  rcases hskip with h | h
  · subst h
    simp
  · by_cases hlen : (raw.toList ++ ['\n']).length < 2
    · rw [if_pos hlen]
    · rw [if_neg hlen]
      have h' : findDelimIdx (raw.data ++ ['\n']) = none := h
      simp [splitN2, h']

theorem sendLoop_done_step (tail : List Char) (fuel : Nat) (resp : String) :
    sendLoop (fuel + 1) ("data: [DONE]\n".toList ++ tail) resp = some resp := rfl

/-! ### C8: constructor requirements -/

/-- C8: `NewChatGPT` fails exactly when one of sessionToken, clearanceToken
or userAgent is the empty string (for every combination), and on success the
timeout is the supplied override, defaulting to ten seconds. -/
theorem newChatGPT_requires_fields (opts : ChatGPTOptions) :
    ((NewChatGPT opts = none) ↔
      (opts.sessionToken = "" ∨ opts.clearanceToken = "" ∨ opts.userAgent = "")) ∧
    (∀ c, NewChatGPT opts = some c →
      c.timeout = (match opts.timeout with
                   | some t => t
                   | none => 10 * timeSecond)) := by
  unfold NewChatGPT
  by_cases h : opts.sessionToken = "" ∨ opts.clearanceToken = "" ∨ opts.userAgent = ""
  · simp [h]
  · simp only [if_neg h]
    constructor
    · simp [h]
      cases opts.timeout <;> simp
    · intro c hc
      cases htm : opts.timeout <;> rw [htm] at hc
      · injection hc with hc
        subst hc
        rfl
      · injection hc with hc
        subst hc
        rfl

/-- C8 witness: a fully supplied option record constructs with the
ten-second default timeout. -/
theorem newChatGPT_requires_fields_witness :
    ((NewChatGPT { sessionToken := "s", clearanceToken := "cl", userAgent := "ua",
                   hasLog := false, timeout := none } = none) ↔
      (("s" : String) = "" ∨ ("cl" : String) = "" ∨ ("ua" : String) = "")) ∧
    (∀ c, NewChatGPT { sessionToken := "s", clearanceToken := "cl", userAgent := "ua",
                       hasLog := false, timeout := none } = some c →
      c.timeout = (match (none : Option Int) with
                   | some t => t
                   | none => 10 * timeSecond)) :=
  newChatGPT_requires_fields _

/-! ### C4: token expiry comparison -/

/-- A concrete idle environment for counterexamples and witnesses. -/
def envNone : NetEnv :=
  { sessionTransportError := false, sessionStatus := 200, sessionParse := none,
    convStatus := 200, convErrorBody := "", convDecode := fun _ => none }

/-- A client holding a cached token with expiry timestamp 100. -/
def boundaryClient : ChatGPT :=
  { sessionToken := "s", clearanceToken := "cl", accessToken := "tok",
    accessTokenExpires := 100, hasLog := false, timeout := 10 * timeSecond,
    userAgent := "ua" }

/-- C4 counterexample: at the instant the current time equals the expiry
timestamp, the code does NOT consider the token expired and performs no
refresh network call, contradicting the claimed `current time ≥ expiresAt`
criterion. -/
theorem accessToken_boundary_counterexample :
    (100 : Int) ≥ 100 ∧
    IsAccessTokenExpired 100 boundaryClient = false ∧
    (RefreshAccessToken 100 envNone boundaryClient).networkCalls = 0 :=
  ⟨le_refl _, rfl, rfl⟩

/-- C4 (amended): the cached token is considered expired exactly when the
current time is strictly greater than `expiresAt` (at equality it still
counts as valid), and the refresh operation performs a network call exactly
when the token string is empty or strictly past its expiry. -/
theorem accessToken_expiry_strict (now : Int) (env : NetEnv) (c : ChatGPT) :
    (IsAccessTokenExpired now c = true ↔ now > c.accessTokenExpires) ∧
    ((RefreshAccessToken now env c).networkCalls =
      if c.accessToken = "" ∨ now > c.accessTokenExpires then 1 else 0) := by
  constructor
  · simp [IsAccessTokenExpired]
  · have hiff : (c.accessToken = "" ∨ IsAccessTokenExpired now c = true) ↔
        (c.accessToken = "" ∨ now > c.accessTokenExpires) := by
      simp [IsAccessTokenExpired]
    unfold RefreshAccessToken
    by_cases h : c.accessToken = "" ∨ now > c.accessTokenExpires
    · rw [if_pos h, if_pos ((by simpa [IsAccessTokenExpired] using h :
        c.accessToken = "" ∨ IsAccessTokenExpired now c = true))]
      split
      · rfl
      · split
        · rfl
        · split
          · rfl
          · split
            · rfl
            · split <;> rfl
    · rw [if_neg h, if_neg (fun hc => h (hiff.mp hc))]

/-! ### C7: cached-token refresh is a no-op -/

theorem refresh_noop_of_cached (now : Int) (env : NetEnv) (g : ChatGPT)
    (hTok : g.accessToken ≠ "") (hValid : now ≤ g.accessTokenExpires) :
    RefreshAccessToken now env g = { state := g, networkCalls := 0, error := none } := by
  unfold RefreshAccessToken
  rw [if_neg]
  intro hc
  rcases hc with h | h
  · exact hTok h
  · simp only [IsAccessTokenExpired, decide_eq_true_eq, gt_iff_lt] at h
    omega

/-- C7: with a non-empty cached access token whose expiry lies in the
future, the token-refresh operation issues zero network calls, succeeds,
and leaves the cached token and its expiry unchanged. -/
theorem refreshAccessToken_cached_idempotent (now : Int) (env : NetEnv) (c : ChatGPT)
    (hTok : c.accessToken ≠ "") (hFuture : now < c.accessTokenExpires) :
    RefreshAccessToken now env c = { state := c, networkCalls := 0, error := none } :=
  refresh_noop_of_cached now env c hTok (le_of_lt hFuture)

/-- C7 witness: at time 50, a client caching token "tok" with expiry 100
refreshes without any network call and without any state change. -/
theorem refreshAccessToken_cached_idempotent_witness :
    RefreshAccessToken 50 envNone boundaryClient =
      { state := boundaryClient, networkCalls := 0, error := none } :=
  refreshAccessToken_cached_idempotent 50 envNone boundaryClient (by decide) (by decide)

/-! ### C9: conversation_id key presence -/

/-- C9: the serialized conversation request body contains the
`conversation_id` key exactly when the client already knows a non-empty
conversation id; otherwise the key is absent entirely, never present with an
empty string value. -/
theorem conversationBody_omits_empty_conversation_id (c : Conversation)
    (freshMsg message : String) :
    ("conversation_id" ∈
        (marshalConversationBody (buildConversationBody c freshMsg message)).map Prod.fst)
      ↔ c.conversationId ≠ "" := by
  by_cases h : c.conversationId = "" <;>
    simp [marshalConversationBody, buildConversationBody, h]

/-! ### C1: termination of the read loop -/

/-- C1 (refuted): the read loop never exits for an empty response stream,
nor for a stream whose final line is newline-terminated without a `[DONE]`
sentinel: the zero-byte read at EOF takes the `len < 2` continue before the
EOF break is checked, for every fuel bound. -/
theorem sendLoop_never_breaks_at_eof :
    (∀ fuel resp, sendLoop fuel [] resp = none) ∧
    (∀ fuel resp, sendLoop fuel ("data: x\n".toList) resp = none) := by
  refine ⟨sendLoop_nil_fuel, ?_⟩
  intro fuel resp
  cases fuel with
  | zero => rfl
  | succ n =>
    have hx : "data: x\n".toList = "data: ".toList ++ "x".toList ++ '\n' :: ([] : List Char) := by
      decide
    rw [hx, sendLoop_payload_step "x" (by decide) (by decide) [] n resp, sendLoop_nil_fuel]

/-! ### C5: the loop keeps only the last payload before [DONE] -/

/-- One line of a response stream before the `[DONE]` sentinel: either a
`data: `-prefixed payload line or a line the loop skips. -/
inductive StreamEvent where
  | payload (p : String)
  | junk (raw : String)
  deriving Repr, DecidableEq

/-- The bytes of one stream line (newline-terminated). -/
def eventChars : StreamEvent → List Char
  | .payload p => "data: ".toList ++ p.toList ++ ['\n']
  | .junk raw => raw.toList ++ ['\n']

/-- A whole response stream: the given lines, then the `data: [DONE]`
sentinel line, then arbitrary further bytes. -/
def streamChars (events : List StreamEvent) (tail : List Char) : List Char :=
  events.foldr (fun e acc => eventChars e ++ acc) ("data: [DONE]\n".toList ++ tail)

/-- Well-formedness of one pre-sentinel line: payload lines carry a
newline-free payload other than the sentinel; junk lines are newline-free
and are skipped by the loop (shorter than 2 bytes once newline-terminated,
or without the `": "` separator). -/
def eventWF : StreamEvent → Prop
  | .payload p => '\n' ∉ p.toList ∧ p ≠ "[DONE]"
  | .junk raw => '\n' ∉ raw.toList ∧ (raw = "" ∨ findDelimIdx (raw.toList ++ ['\n']) = none)

instance : DecidablePred eventWF := fun e => by
  cases e <;> (dsimp [eventWF]; infer_instance)

/-- The candidate the loop holds after consuming the given lines, starting
from `resp`: the last payload, junk lines changing nothing. -/
def capturedAfter (events : List StreamEvent) (resp : String) : String :=
  events.foldl (fun acc e => match e with | .payload p => p | .junk _ => acc) resp

/-- C5: over any stream made of well-formed payload and junk lines followed
by the `[DONE]` sentinel, the loop returns exactly the last payload line's
payload (the starting candidate if there is none): every earlier payload is
overwritten and junk lines never alter the candidate. -/
theorem sendLoop_keeps_last_payload (events : List StreamEvent)
    (hwf : ∀ e ∈ events, eventWF e) (fuel : Nat) (resp : String) (tail : List Char) :
    sendLoop (events.length + (fuel + 1)) (streamChars events tail) resp =
      some (capturedAfter events resp) := by
  revert hwf
  induction events generalizing resp with
  | nil =>
    intro _
    simpa [streamChars, capturedAfter] using sendLoop_done_step tail fuel resp
  | cons e es ih =>
    intro hwf
    have hwe := hwf e (List.mem_cons_self e es)
    have hwes : ∀ x ∈ es, eventWF x := fun x hx => hwf x (List.mem_cons_of_mem e hx)
    have hlen : (e :: es).length + (fuel + 1) = (es.length + (fuel + 1)) + 1 := by
      simp only [List.length_cons]
      omega
    rw [hlen]
    cases e with
    | payload p =>
      obtain ⟨h1, h2⟩ := hwe
      have hstream : streamChars (.payload p :: es) tail =
          "data: ".toList ++ p.toList ++ '\n' :: streamChars es tail := by
        simp [streamChars, eventChars, List.append_assoc]
      rw [hstream, sendLoop_payload_step p h1 h2 _ _ resp]
      have := ih p hwes
      simpa [capturedAfter] using this
    | junk raw =>
      obtain ⟨h1, h2⟩ := hwe
      have hstream : streamChars (.junk raw :: es) tail =
          raw.toList ++ '\n' :: streamChars es tail := by
        simp [streamChars, eventChars, List.append_assoc]
      rw [hstream, sendLoop_junk_step raw h1 h2 _ _ resp]
      have := ih resp hwes
      simpa [capturedAfter] using this

/-- C5 witness: the stream `data: a` / `x` (junk) / `data: b` / `data:
[DONE]` yields exactly the payload `b`. -/
theorem sendLoop_keeps_last_payload_witness :
    sendLoop 4 (streamChars [.payload "a", .junk "x", .payload "b"] []) "" = some "b" :=
  sendLoop_keeps_last_payload [.payload "a", .junk "x", .payload "b"] (by decide) 0 "" []

/-! ### Concrete fixtures shared by witnesses and counterexamples -/

/-- A conversation with a valid cached token and prior linkage "root". -/
def readyConv : Conversation :=
  { chatgpt := boundaryClient, conversationId := "", parentMessageId := "root" }

/-! ### C2: streams with no captured candidate -/

/-- C2 (empty-stream half refuted): when the stream's only line is the
`data: [DONE]` sentinel, the loop breaks with the empty candidate, parsing
the empty string fails and the DecodeError is returned to the caller; but
for a stream that is simply empty the loop never exits for any fuel bound,
so the claimed empty-string parse failure is never reached. -/
theorem sendMessage_empty_capture (now : Int) (env : NetEnv)
    (c : Conversation) (message freshParent freshMsg : String)
    (hTok : c.chatgpt.accessToken ≠ "") (hValid : now ≤ c.chatgpt.accessTokenExpires)
    (hStatus : env.convStatus = 200) (hDecode : env.convDecode "" = none) :
    (∀ fuel, SendMessage now env ("data: [DONE]\n".toList) freshParent freshMsg (fuel + 1)
        c message =
      some ((if c.parentMessageId = "" then { c with parentMessageId := freshParent } else c),
            .err (.decodeErr ""))) ∧
    (∀ fuel, SendMessage now env [] freshParent freshMsg fuel c message = none) := by
  constructor
  · intro fuel
    have hdone : sendLoop (fuel + 1) ['d', 'a', 't', 'a', ':', ' ', '[', 'D', 'O', 'N', 'E',
        ']', '\n'] "" = some "" := sendLoop_done_step [] fuel ""
    by_cases hpm : c.parentMessageId = "" <;>
      simp [SendMessage, hpm, refresh_noop_of_cached now env _ hTok hValid, hStatus,
        hdone, hDecode]
  · intro fuel
    by_cases hpm : c.parentMessageId = "" <;>
      simp [SendMessage, hpm, refresh_noop_of_cached now env _ hTok hValid, hStatus,
        sendLoop_nil_fuel]

/-- C2 witness: with token "tok" valid at time 50, the sentinel-only stream
returns the DecodeError of the empty payload, and the empty stream returns
nothing for every fuel bound. -/
theorem sendMessage_empty_capture_witness :
    (∀ fuel, SendMessage 50 envNone ("data: [DONE]\n".toList) "p1" "m1" (fuel + 1)
        readyConv "hi" =
      some ((if readyConv.parentMessageId = ""
             then { readyConv with parentMessageId := "p1" } else readyConv),
            .err (.decodeErr ""))) ∧
    (∀ fuel, SendMessage 50 envNone [] "p1" "m1" fuel readyConv "hi" = none) :=
  sendMessage_empty_capture 50 envNone readyConv "hi" "p1" "m1"
    (by decide) (by decide) rfl rfl

/-! ### C6: end-to-end happy path -/

/-- The JSON text of the single pre-sentinel payload of the end-to-end
scenario. -/
def helloPayload : String :=
  "\x7b\"message\":\x7b\"id\":\"m2\",\"content\":\x7b\"parts\":[\"Hello!\"]\x7d\x7d,\"conversation_id\":\"c1\"\x7d"

/-- The structure `json.Unmarshal` produces from `helloPayload`. -/
def helloResult : ConversationResult :=
  { message := { id := "m2", role := "assistant",
                 content := { contentType := "text", parts := ["Hello!"] } }
    conversationId := "c1" }

/-- C6: with a valid cached token and a conversation response whose single
pre-`[DONE]` line carries the payload decoding to message id "m2", parts
`["Hello!"]` and conversation id "c1", SendMessage returns `"Hello!"` and
the conversation afterwards holds parentMessageId "m2" and conversationId
"c1". -/
theorem sendMessage_end_to_end_hello (now : Int) (env : NetEnv) (c : Conversation)
    (message freshParent freshMsg : String) (fuel : Nat)
    (hTok : c.chatgpt.accessToken ≠ "")
    (hValid : now ≤ c.chatgpt.accessTokenExpires)
    (hStatus : env.convStatus = 200)
    (hDecode : env.convDecode helloPayload = some helloResult) :
    SendMessage now env
        ("data: ".toList ++ helloPayload.toList ++ '\n' :: "data: [DONE]\n".toList)
        freshParent freshMsg (fuel + 2) c message =
      some ({ chatgpt := c.chatgpt, conversationId := "c1", parentMessageId := "m2" },
            .ok "Hello!") := by
  have hloop : sendLoop (fuel + 2)
      ("data: ".toList ++ helloPayload.toList ++ '\n' :: "data: [DONE]\n".toList) "" =
      some helloPayload := by
    have h1 := sendLoop_payload_step helloPayload (by decide) (by decide)
      ("data: [DONE]\n".toList) (fuel + 1) ""
    rw [show fuel + 2 = (fuel + 1) + 1 from rfl, h1]
    simpa using sendLoop_done_step [] fuel helloPayload
  have hloop' : sendLoop (fuel + 2)
      ('d' :: 'a' :: 't' :: 'a' :: ':' :: ' ' ::
        (helloPayload.data ++
          ['\n', 'd', 'a', 't', 'a', ':', ' ', '[', 'D', 'O', 'N', 'E', ']', '\n'])) "" =
      some helloPayload := hloop
  by_cases hpm : c.parentMessageId = "" <;>
    simp [SendMessage, hpm, refresh_noop_of_cached now env _ hTok hValid, hStatus,
      hloop', hDecode, GetMessage, helloResult]

/-- A concrete environment decoding exactly `helloPayload`. -/
def envHello : NetEnv :=
  { sessionTransportError := false, sessionStatus := 200, sessionParse := none,
    convStatus := 200, convErrorBody := "",
    convDecode := fun s => if s = helloPayload then some helloResult else none }

/-- C6 witness: the scenario run at time 50 against the concrete
environment. -/
theorem sendMessage_end_to_end_hello_witness :
    SendMessage 50 envHello
        ("data: ".toList ++ helloPayload.toList ++ '\n' :: "data: [DONE]\n".toList)
        "p1" "m1" 2 readyConv "hi" =
      some ({ chatgpt := boundaryClient, conversationId := "c1", parentMessageId := "m2" },
            .ok "Hello!") :=
  sendMessage_end_to_end_hello 50 envHello readyConv "hi" "p1" "m1" 0
    (by decide) (by decide) rfl rfl

/-! ### C10: empty parts list reaches the unguarded index -/

/-- C10: when the captured payload decodes successfully but its text-parts
list is empty, SendMessage returns neither a reply nor an error: the
unguarded `Parts[0]` index in GetMessage is out of bounds — the embedding's
explicit panic branch — and linkage was already overwritten before it. -/
theorem sendMessage_empty_parts_panics (now : Int) (env : NetEnv) (stream : List Char)
    (message freshParent freshMsg s : String) (fuel : Nat) (c : Conversation)
    (result : ConversationResult)
    (hTok : c.chatgpt.accessToken ≠ "")
    (hValid : now ≤ c.chatgpt.accessTokenExpires)
    (hStatus : env.convStatus = 200)
    (hLoop : sendLoop fuel stream "" = some s)
    (hDecode : env.convDecode s = some result)
    (hParts : result.message.content.parts = []) :
    SendMessage now env stream freshParent freshMsg fuel c message =
      some ({ chatgpt := c.chatgpt, conversationId := result.conversationId,
              parentMessageId := result.message.id }, .panicked) := by
  by_cases hpm : c.parentMessageId = "" <;>
    simp [SendMessage, hpm, refresh_noop_of_cached now env _ hTok hValid, hStatus,
      hLoop, hDecode, GetMessage, hParts]

/-- A decoded reply whose parts list is empty. -/
def emptyPartsResult : ConversationResult :=
  { message := { id := "m9", role := "assistant",
                 content := { contentType := "text", parts := [] } }
    conversationId := "c9" }

/-- A concrete environment decoding the payload `{}` to `emptyPartsResult`. -/
def envEmptyParts : NetEnv :=
  { sessionTransportError := false, sessionStatus := 200, sessionParse := none,
    convStatus := 200, convErrorBody := "",
    convDecode := fun s => if s = "\x7b\x7d" then some emptyPartsResult else none }

/-- C10 witness: a concrete stream whose payload decodes to an empty parts
list drives SendMessage into the panic branch. -/
theorem sendMessage_empty_parts_panics_witness :
    SendMessage 50 envEmptyParts ("data: \x7b\x7d\ndata: [DONE]\n".toList) "p1" "m1" 2
        readyConv "hi" =
      some ({ chatgpt := boundaryClient, conversationId := "c9", parentMessageId := "m9" },
            .panicked) :=
  sendMessage_empty_parts_panics 50 envEmptyParts ("data: \x7b\x7d\ndata: [DONE]\n".toList)
    "hi" "p1" "m1" "\x7b\x7d" 2 readyConv emptyPartsResult
    (by decide) (by decide) rfl rfl rfl rfl

/-! ### C3: linkage atomicity -/

/-- A brand-new conversation: no cached token, no linkage. -/
def freshConv : Conversation :=
  { chatgpt := { sessionToken := "s", clearanceToken := "cl", accessToken := "",
                 accessTokenExpires := 0, hasLog := false, timeout := 10 * timeSecond,
                 userAgent := "ua" }
    conversationId := "", parentMessageId := "" }

/-- An environment whose session endpoint answers HTTP 403. -/
def env403 : NetEnv :=
  { sessionTransportError := false, sessionStatus := 403, sessionParse := none,
    convStatus := 200, convErrorBody := "", convDecode := fun _ => none }

/-- C3 counterexample: on a brand-new conversation (empty parent-message id)
whose token refresh fails with HTTP 403, SendMessage returns an error, yet
the parent-message linkage field no longer holds its pre-call value: it was
overwritten with the freshly generated root identifier before the failure
point. -/
theorem sendMessage_linkage_not_atomic_counterexample :
    SendMessage 0 env403 [] "11111111-aaaa" "m1" 1 freshConv "hi" =
      some ({ freshConv with parentMessageId := "11111111-aaaa" },
            .err (.refresh (.statusNot200 403))) ∧
    ("11111111-aaaa" : String) ≠ freshConv.parentMessageId :=
  ⟨rfl, by decide⟩

/-- C3 (amended): on an error return the conversation id is unchanged and
the parent-message id is unchanged unless it was empty at entry, in which
case it holds the freshly generated root identifier even though the call
failed; on a normal return both linkage fields are overwritten with the
identifiers of the decoded final payload. -/
theorem sendMessage_linkage_atomicity (now : Int) (env : NetEnv) (stream : List Char)
    (freshParent freshMsg message : String) (fuel : Nat)
    (c c' : Conversation) (res : SendResult)
    (h : SendMessage now env stream freshParent freshMsg fuel c message = some (c', res)) :
    ((∃ e, res = .err e) →
        c'.conversationId = c.conversationId ∧
        c'.parentMessageId =
          (if c.parentMessageId = "" then freshParent else c.parentMessageId)) ∧
    (∀ reply, res = .ok reply →
        ∃ s result, sendLoop fuel stream "" = some s ∧
          env.convDecode s = some result ∧
          c'.parentMessageId = result.message.id ∧
          c'.conversationId = result.conversationId ∧
          GetMessage result = some reply) := by
  have hcg : (if c.parentMessageId = "" then { c with parentMessageId := freshParent }
      else c).chatgpt = c.chatgpt := by
    by_cases hpm : c.parentMessageId = "" <;> simp [hpm]
  have hcid : (if c.parentMessageId = "" then { c with parentMessageId := freshParent }
      else c).conversationId = c.conversationId := by
    by_cases hpm : c.parentMessageId = "" <;> simp [hpm]
  have hpid : (if c.parentMessageId = "" then { c with parentMessageId := freshParent }
      else c).parentMessageId =
      (if c.parentMessageId = "" then freshParent else c.parentMessageId) := by
    by_cases hpm : c.parentMessageId = "" <;> simp [hpm]
  simp only [SendMessage] at h
  rw [hcg, hcid, hpid] at h
  constructor
  · rintro ⟨e, rfl⟩
    split at h
    · injection h with h
      injection h with h1 h2
      subst h1
      simp
    · split at h
      · injection h with h
        injection h with h1 h2
        subst h1
        simp
      · split at h
        · exact absurd h (by simp)
        · split at h
          · injection h with h
            injection h with h1 h2
            subst h1
            simp
          · split at h
            · injection h with h
              injection h with h1 h2
              exact absurd h2 (by simp)
            · injection h with h
              injection h with h1 h2
              exact absurd h2 (by simp)
  · rintro reply rfl
    split at h
    · injection h with h
      injection h with h1 h2
      exact absurd h2 (by simp)
    · split at h
      · injection h with h
        injection h with h1 h2
        exact absurd h2 (by simp)
      · rename_i heq0 hst
        split at h
        · exact absurd h (by simp)
        · rename_i respMessage heq1
          split at h
          · injection h with h
            injection h with h1 h2
            exact absurd h2 (by simp)
          · rename_i result heq2
            split at h
            · rename_i r0 heq3
              injection h with h
              injection h with h1 h2
              injection h2 with h2
              subst h1
              subst h2
              exact ⟨_, _, heq1, heq2, rfl, rfl, heq3⟩
            · injection h with h
              injection h with h1 h2
              exact absurd h2 (by simp)

/-- C3 amended-theorem witness: instantiated at the concrete 403-failing
call on a brand-new conversation. -/
theorem sendMessage_linkage_atomicity_witness :
    ((∃ e, SendResult.err (SendError.refresh (.statusNot200 403)) = SendResult.err e) →
        ({ freshConv with parentMessageId := "11111111-aaaa" } : Conversation).conversationId =
          freshConv.conversationId ∧
        ({ freshConv with parentMessageId := "11111111-aaaa" } : Conversation).parentMessageId =
          (if freshConv.parentMessageId = "" then "11111111-aaaa"
           else freshConv.parentMessageId)) ∧
    (∀ reply, SendResult.err (SendError.refresh (.statusNot200 403)) = .ok reply →
        ∃ s result, sendLoop 1 [] "" = some s ∧
          env403.convDecode s = some result ∧
          ({ freshConv with parentMessageId := "11111111-aaaa" } :
              Conversation).parentMessageId = result.message.id ∧
          ({ freshConv with parentMessageId := "11111111-aaaa" } :
              Conversation).conversationId = result.conversationId ∧
          GetMessage result = some reply) :=
  sendMessage_linkage_atomicity 0 env403 [] "11111111-aaaa" "m1" "hi" 1 freshConv
    { freshConv with parentMessageId := "11111111-aaaa" }
    (SendResult.err (SendError.refresh (.statusNot200 403))) rfl
